import Mathlib

/-!
Shallow embedding of the cometjs Comet connection and its manager.

The repository holds two variants of the same module:
  src/unnamed/part_000 (Comet with an optional pack/transform hook in _send) and
  src/comet.js (Comet whose _send always AES-transforms and writes two extra
  X-Address header lines).
All lifecycle operations (start, sendMsg, directSend, echoMsg, pongMsg, del,
_close, _remove, _setTimeOut) and the whole manager (createComet, _regSendId,
_unregSendId, _deleteComet, ...) are textually identical between the two
variants; only _send differs.  The connection model below follows part_000;
both _send framings are modelled separately for the wire-framing claims.

Conventions of the embedding:
- JS side effects (callback invocations, transport writes, console output)
  are recorded as an ordered event trace (List Ev); trace order is the
  execution order of the corresponding statements.
- The dynamically assigned callback slots (closeFunc, errFunc, sendFunc,
  echoFunc, rmFunc, hbFunc, pkFunc) are modelled by registration flags; the
  code guards every slot with an "if" except closeFunc, which is invoked
  unguarded — calling it while unset raises a TypeError, modelled by the
  "thrown" flag of a result (statements after the throw do not execute).
- part_000's _send has two branches.  With no pack hook (pkFunc unset) it
  builds and writes one frame.  With a pack hook it passes the payload to
  pkFunc together with a result callback; that callback is a plain
  function, so under the module's "use strict" its this is undefined when
  the transform invokes it as an ordinary call, and both its arms —
  this.errFunc(err) on a transform error, this.resp.write(bufAll) on
  success — raise a TypeError before any frame is written or any error is
  delivered.  The model takes the transform to be synchronous (the spec
  allows either), so the TypeError propagates out of the caller of _send;
  an asynchronous transform would raise the same TypeError in a later
  turn, still writing no frame and notifying no observer.
- setTimeout handles are modelled by a strictly increasing counter; timeId
  is 0 when no timer is pending, as in the source.  _setTimeOut and _remove
  first clear any pending timer; since timeId holds the only handle, the
  guarded clear followed by the overwrite is modelled as a plain overwrite.
- timerMsec records the duration passed to the most recent setTimeout call.
- uuid.v4 results (connection ids, transaction ids) are passed in as
  parameters, and the JSON serialization of a message object is a fixed
  injective rendering; neither is inspected by the code.
- JS numbers carried by messages (the ping interval, in seconds) are
  modelled as integers.
-/

/-- A message object: the fields the comet code itself reads or writes
(`sid` for echo correlation, `interval` on a ping), plus an uninterpreted body. -/
structure Msg where
  sid : Option String := none
  interval : Option Int := none
  body : String := ""
deriving Repr, DecidableEq

def CLOSE_TIMEOUT : String := "CLOSE_TIMEOUT"
def CLOSE_PEER : String := "CLOSE_PEER"
def CLOSE_COMPEL : String := "CLOSE_COMPEL"

def CONTENT_TYPE_DEV : String := "multipart/x-mixed-replace;boundary=ctalk_boundary"
def CONTENT_TYPE_APP : String := "application/x-cloud-snipd"

/-- Connection state: the mutable fields of a Comet instance plus the
registration flags of its callback slots. -/
structure Comet where
  id : String
  eventPool : List String := []
  loopTimeout : Nat := 5 * 60 * 1000
  timeId : Nat := 0
  timerMsec : Nat := 0
  nextT : Nat := 0
  closeReason : Option String := none
  closeFlag : Bool := false
  key : Option String := none
  hasCloseFunc : Bool := false
  hasErrFunc : Bool := false
  hasSendFunc : Bool := false
  hasEchoFunc : Bool := false
  hasRmFunc : Bool := false
  hasHbFunc : Bool := false
  hasPkFunc : Bool := false
deriving Repr, DecidableEq

/-- `new Comet(id, req, resp)` with a caller-supplied (or pre-generated) id:
field initialization as in the constructor body. -/
def newComet (id : String) : Comet := { id := id }

/-- Observable side effects, in execution order. -/
inductive Ev where
  | writeHead (status : Nat) (contentType conn : String)
  | write (data : String)
  | respEnd
  | closeCb (code message : String)
  | rmCb (cid : String)
  | errCb (message : String)
  | sendObs (cid sid : String) (m : Msg)
  | echoObs (cid : Option String) (sid : String) (m : Msg)
  | echoUser (m : Msg)
  | poolDel (sid : String)
  | hbObs (key : Option String)
  | warn (message : String)
  | log (message : String)
  | stored (cid : String)
deriving Repr, DecidableEq

/-- Result of a connection operation: updated state, emitted events, and
whether the operation terminated by an uncaught TypeError. -/
structure CRes where
  c : Comet
  evs : List Ev
  thrown : Bool := false
deriving Repr, DecidableEq

/-- Rendering of a nullable string, for diagnostics. -/
def reasonText : Option String → String
  | none => "null"
  | some s => s

def compelDupMsg (r : Option String) : String :=
  "Compel close duplicate, last close reason " ++ reasonText r

def peerDupMsg (r : Option String) : String :=
  "peer close duplicate, last close reason " ++ reasonText r

def timeoutDupMsg (r : Option String) : String :=
  "Timeout close duplicate, last close reason " ++ reasonText r

def optStr : Option String → String
  | none => "null"
  | some s => "\"" ++ s ++ "\""

def optInt : Option Int → String
  | none => "null"
  | some i => toString i

/-- A fixed JSON-like rendering standing in for JSON.stringify(msg). -/
def Msg.json (m : Msg) : String :=
  "\x7b\"sid\":" ++ optStr m.sid ++ ",\"interval\":" ++ optInt m.interval
    ++ ",\"body\":\"" ++ m.body ++ "\"\x7d"

def crlf : String := "\r\n"

/-- part_000 _send: frame layout around the (possibly transformed) payload,
after the falsy-prefix and falsy-contentType defaults have been applied.
Content-Length is Buffer(payload).length, i.e. the UTF-8 byte length. -/
def sendFrame000 (pfx ct payload : String) : String :=
  pfx ++ "Content-Type: " ++ ct ++ "\r\nContent-Length: "
    ++ toString payload.utf8ByteSize ++ "\r\n\r\n"
    ++ payload ++ "\r\n--ctalk_boundary"

/-- comet.js _send: same, but the header block additionally carries the
X-Address and X-Remote-Address lines before the blank line. -/
def sendFrameCometJs (pfx ct payload : String) : String :=
  pfx ++ "Content-Type: " ++ ct ++ "\r\nContent-Length: "
    ++ toString payload.utf8ByteSize
    ++ "\r\nX-Address: \r\nX-Remote-Address: \r\n\r\n"
    ++ payload ++ "\r\n--ctalk_boundary"

/-- Modelled from the spec (section 6, wire framing grammar): optional
prefix, a Content-Type line, a Content-Length line carrying the decimal
byte length of the transformed payload, an empty line, the payload bytes,
then the boundary marker.  Stated independently of the source for the
refinement claim about framing. -/
def specFrame (pfx ct payload : String) : String :=
  pfx ++ ("Content-Type: " ++ ct ++ crlf)
    ++ ("Content-Length: " ++ toString payload.utf8ByteSize ++ crlf)
    ++ crlf ++ payload ++ (crlf ++ "--ctalk_boundary")

/-- JS falsy default for the contentType argument of _send/sendMsg. -/
def defaultCt : Option String → String
  | none => CONTENT_TYPE_APP
  | some ct => if ct = "" then CONTENT_TYPE_APP else ct

/-- JS falsy default for the prefix argument of _send. -/
def defaultPfx : Option String → String
  | none => ""
  | some p => p

/-- The frame written by _send when no pack hook is installed. -/
def cometWrite (m : Msg) (pfx ct : Option String) : Ev :=
  Ev.write (sendFrame000 (defaultPfx pfx) (defaultCt ct) m.json)

/-- this._send(msg, prefix, contentType) on part_000, given the serialized
payload: with no pack hook, build and write one frame; with a pack hook
and a synchronous transform, the result callback runs with strict-mode
this = undefined, so this.errFunc(err) (transform-error arm) and
this.resp.write(bufAll) (success arm) both raise a TypeError — nothing is
written and no observer fires (see the header note). -/
def sendStep (c : Comet) (payload : String) (pfx ct : Option String) : List Ev × Bool :=
  if c.hasPkFunc then
    ([], true)
  else
    ([Ev.write (sendFrame000 (defaultPfx pfx) (defaultCt ct) payload)], false)

/-- this._setTimeOut(msec): clear any pending timer, arm a fresh one. -/
def armTimer (c : Comet) (msec : Nat) : Comet :=
  { c with timeId := c.nextT + 1, nextT := c.nextT + 1, timerMsec := msec }

/-- this._remove(): clear any pending timer (timeId ends up 0 in either
branch of the source's guard), then fire the remove observer if set. -/
def removeStep (c : Comet) : Comet × List Ev :=
  ({ c with timeId := 0 }, if c.hasRmFunc then [Ev.rmCb c.id] else [])

def connectOkJson : String := "\x7b\"cmd_echo\":\"connectOK\"\x7d"

/-- this.start(): write the response head, push the connect acknowledgement
frame, arm the liveness timer at loopTimeout.  (The peer-close listener it
registers is modelled as the peerClose trigger below.)  A _send throw
(pack hook) aborts start before the listener is registered and before the
timer is armed. -/
def Comet.start (c : Comet) : CRes :=
  let s := sendStep c connectOkJson (some "--ctalk_boundary\r\n") (some CONTENT_TYPE_DEV)
  if s.2 then
    { c := c, evs := Ev.writeHead 200 CONTENT_TYPE_DEV "close" :: s.1, thrown := true }
  else
    { c := armTimer c c.loopTimeout,
      evs := Ev.writeHead 200 CONTENT_TYPE_DEV "close" :: s.1,
      thrown := false }

/-- this.del(): compel close.  Duplicate closes only warn; otherwise set
closeFlag and closeReason, run _close (closeFunc is invoked unguarded:
a missing close callback raises), then _remove. -/
def Comet.del (c : Comet) : CRes :=
  if c.closeFlag then
    { c := c, evs := [Ev.warn (compelDupMsg c.closeReason)], thrown := false }
  else
    let c1 : Comet := { c with closeFlag := true, closeReason := some CLOSE_COMPEL }
    if c1.hasCloseFunc then
      let r := removeStep c1
      { c := r.1,
        evs := [Ev.closeCb CLOSE_COMPEL "closed by server", Ev.respEnd] ++ r.2,
        thrown := false }
    else
      { c := c1, evs := [], thrown := true }

/-- The listener start() registers on the response close event: peer close.
Duplicate closes only warn; otherwise set the flag and reason, invoke the
close callback (unguarded) and _remove.  No resp.end on this path. -/
def peerClose (c : Comet) : CRes :=
  if c.closeFlag then
    { c := c, evs := [Ev.warn (peerDupMsg c.closeReason)], thrown := false }
  else
    let c1 : Comet := { c with closeFlag := true, closeReason := some CLOSE_PEER }
    if c1.hasCloseFunc then
      let r := removeStep c1
      { c := r.1, evs := [Ev.closeCb CLOSE_PEER "closed by peer"] ++ r.2, thrown := false }
    else
      { c := c1, evs := [], thrown := true }

/-- Body of the setTimeout callback armed by _setTimeOut: if the connection
is already closed, warn and return; otherwise close with CLOSE_TIMEOUT,
notifying the error observer first, then _close, then _remove. -/
def fireTimeout (c : Comet) : CRes :=
  if c.closeFlag then
    { c := c, evs := [Ev.warn (timeoutDupMsg c.closeReason)], thrown := false }
  else
    let c1 : Comet :=
      { c with closeFlag := true, closeReason := some CLOSE_TIMEOUT, timeId := 0 }
    let e1 := if c1.hasErrFunc then [Ev.errCb "Get next ping timeout."] else []
    if c1.hasCloseFunc then
      let r := removeStep c1
      { c := r.1,
        evs := e1 ++ [Ev.closeCb CLOSE_TIMEOUT "closed by server", Ev.respEnd] ++ r.2,
        thrown := false }
    else
      { c := c1, evs := e1, thrown := true }

/-- this.sendMsg(msg, contentType, echoCb) with the fresh uuid sid passed
in: stamp the sid, register the one-shot waiter, notify the send observer,
default the content type and write the frame; the echo listener is
attached to the waiter last.  When _send throws (pack hook), the listener
is never attached, so the eventPool slot keeps an emitter that can never
fire nor be deleted; the model elides that dead entry — the only
behavioral difference is that a later echo for this sid hits the
emitter-found branch of the source, which does nothing for a
listener-less emitter, instead of printing the not-found log line. -/
def Comet.sendMsg (c : Comet) (sid : String) (m : Msg) (ct : Option String) : CRes :=
  let m1 : Msg := { m with sid := some sid }
  let e1 := if c.hasSendFunc then [Ev.sendObs c.id sid m1] else []
  let s := sendStep c m1.json (some "") ct
  if s.2 then
    { c := c, evs := e1 ++ s.1, thrown := true }
  else
    { c := { c with eventPool := sid :: c.eventPool.filter (fun x => x != sid) },
      evs := e1 ++ s.1, thrown := false }

/-- this.directSend(msg): a frame with no sid and no waiter. -/
def Comet.directSend (c : Comet) (m : Msg) : CRes :=
  let s := sendStep c m.json none none
  { c := c, evs := s.1, thrown := s.2 }

/-- this.echoMsg(msg): look up msg.sid among the waiters; if found the
registered listener runs: first the caller's echo callback, then deletion
of the waiter, then the echo observer.  The observer's cid field is
this.id of the listener, where "this" is the EventEmitter, which has no id
field: the observer receives undefined (modelled none), not the comet id.
If no waiter matches, log and do nothing. -/
def Comet.echoMsg (c : Comet) (m : Msg) : CRes :=
  match m.sid with
  | some sid =>
    if c.eventPool.contains sid then
      let c1 : Comet := { c with eventPool := c.eventPool.filter (fun s => s != sid) }
      let e3 := if c.hasEchoFunc then [Ev.echoObs none sid m] else []
      { c := c1, evs := [Ev.echoUser m, Ev.poolDel sid] ++ e3, thrown := false }
    else
      { c := c, evs := [Ev.log ("event for " ++ sid ++ " not found")], thrown := false }
  | none =>
    { c := c, evs := [Ev.log "event for undefined not found"], thrown := false }

/-- this.pongMsg(msg, contentType): a positive ping interval (seconds)
re-computes loopTimeout as interval * 2000 ms; pong the message back,
re-arm the liveness timer, fire the heartbeat observer if set.  A _send
throw (pack hook) happens after the interval update but before the re-arm
and the observer. -/
def Comet.pongMsg (c : Comet) (m : Msg) (ct : Option String) : CRes :=
  let c1 : Comet :=
    match m.interval with
    | some i => if 0 < i then { c with loopTimeout := (i * 2000).toNat } else c
    | none => c
  let s := sendStep c1 m.json (some "") ct
  if s.2 then
    { c := c1, evs := s.1, thrown := true }
  else
    let c2 := armTimer c1 c1.loopTimeout
    let e2 := if c2.hasHbFunc then [Ev.hbObs c2.key] else []
    { c := c2, evs := s.1 ++ e2, thrown := false }

/-- The three independent close triggers of a connection. -/
inductive Trigger where
  | peer
  | timer
  | compel
deriving Repr, DecidableEq

def dupWarn (t : Trigger) (r : Option String) : String :=
  match t with
  | .peer => peerDupMsg r
  | .timer => timeoutDupMsg r
  | .compel => compelDupMsg r

def applyTrigger (c : Comet) (t : Trigger) : CRes :=
  match t with
  | .peer => peerClose c
  | .timer => fireTimeout c
  | .compel => c.del

/-- Run a sequence of close triggers, concatenating their event traces. -/
def runTriggers (c : Comet) : List Trigger → Comet × List Ev
  | [] => (c, [])
  | t :: ts =>
    let r := applyTrigger c t
    let rest := runTriggers r.c ts
    (rest.1, r.evs ++ rest.2)

def Ev.isCloseCb : Ev → Bool
  | .closeCb _ _ => true
  | _ => false

def Ev.isRmCb : Ev → Bool
  | .rmCb _ => true
  | _ => false

def Ev.isEchoUser : Ev → Bool
  | .echoUser _ => true
  | _ => false

def countCloseCb (evs : List Ev) : Nat := evs.countP Ev.isCloseCb

def countRmCb (evs : List Ev) : Nat := evs.countP Ev.isRmCb

def countEchoUser (evs : List Ev) : Nat := evs.countP Ev.isEchoUser

/-- Formalization of the claim "on each echo resolution the waiter is
deleted before the caller's echo callback is invoked": scanning the trace
left to right, every caller-callback invocation must be preceded by the
deletion of its transaction id. -/
def delBeforeUse : List Ev → List String → Bool
  | [], _ => true
  | Ev.poolDel s :: es, ds => delBeforeUse es (s :: ds)
  | Ev.echoUser m :: es, ds =>
    (match m.sid with
     | some s => ds.contains s
     | none => false) && delBeforeUse es ds
  | _ :: es, ds => delBeforeUse es ds

/-- Repeated pongMsg calls (message and contentType of each call). -/
def runPongs (c : Comet) : List (Msg × Option String) → Comet
  | [] => c
  | p :: ps => runPongs (c.pongMsg p.1 p.2).c ps

/- ===== the manager (cometMgr) ===== -/

/-- Association-list read: first binding of the key, as a JS object lookup. -/
def mapGet {α : Type} (l : List (String × α)) (k : String) : Option α :=
  match l with
  | [] => none
  | p :: rest => if p.1 = k then some p.2 else mapGet rest k

/-- Association-list write: obj[k] = v (at most one binding for k remains). -/
def mapSet {α : Type} (l : List (String × α)) (k : String) (v : α) :
    List (String × α) :=
  (k, v) :: l.filter (fun p => p.1 != k)

/-- Manager state: the by-id index and the outstanding-transaction index.
The keyMap device-key bookkeeping (mapComet/findComet/getCometsExp and the
onHeart liveness refresh) touches neither index and is outside the claims
treated here. -/
structure Mgr where
  comets : List (String × Comet) := []
  sendIds : List (String × String) := []
deriving Repr, DecidableEq

/-- _deleteComet(cid): drop the by-id entry and every transaction entry
still pointing at cid. -/
def Mgr.deleteComet (m : Mgr) (cid : String) : Mgr :=
  { comets := m.comets.filter (fun p => p.1 != cid),
    sendIds := m.sendIds.filter (fun p => p.2 != cid) }

/-- The observers createComet wires onto a new comet, as a reaction to each
emitted event: onSend inserts into sendIds, onEcho deletes the echoed sid
from sendIds, onRemove runs _deleteComet.  (onHeart only refreshes keyMap
liveness, see Mgr.) -/
def Mgr.react (m : Mgr) (e : Ev) : Mgr :=
  match e with
  | .sendObs cid sid _ => { m with sendIds := mapSet m.sendIds sid cid }
  | .echoObs _ sid _ => { m with sendIds := m.sendIds.filter (fun p => p.1 != sid) }
  | .rmCb cid => m.deleteComet cid
  | _ => m

def Mgr.reacts (m : Mgr) (evs : List Ev) : Mgr := evs.foldl Mgr.react m

/-- The wiring performed by createComet: all four observer slots set. -/
def wire (c : Comet) : Comet :=
  { c with hasSendFunc := true, hasEchoFunc := true,
           hasRmFunc := true, hasHbFunc := true }

/-- Result of a manager operation. -/
structure MRes where
  m : Mgr
  evs : List Ev
  thrown : Bool := false
deriving Repr, DecidableEq

/-- Run one connection operation on the comet stored under cid, mirroring
in-place mutation, and let the manager react to the emitted events in
order.  Absent cid: nothing happens. -/
def Mgr.onComet (m : Mgr) (cid : String) (f : Comet → CRes) : MRes :=
  match mapGet m.comets cid with
  | none => { m := m, evs := [], thrown := false }
  | some c =>
    let r := f c
    let m1 : Mgr := { m with comets := mapSet m.comets cid r.c }
    { m := m1.reacts r.evs, evs := r.evs, thrown := r.thrown }

/-- createComet(cid, req, resp) with the uuid fallback id passed in: a
truthy cid naming a live entry compel-closes the old connection first (its
remove observer running _deleteComet), then the new wired comet is stored
under its id.  A throw from the old connection's del propagates. -/
def Mgr.createComet (m : Mgr) (cid : String) (fresh : String) : MRes :=
  let delRes : MRes :=
    if cid ≠ "" then
      match mapGet m.comets cid with
      | some old =>
        let r := old.del
        let m1 : Mgr := { m with comets := mapSet m.comets cid r.c }
        { m := m1.reacts r.evs, evs := r.evs, thrown := r.thrown }
      | none => { m := m, evs := [], thrown := false }
    else { m := m, evs := [], thrown := false }
  if delRes.thrown then delRes
  else
    let id := if cid = "" then fresh else cid
    let comet := wire (newComet id)
    { m := { delRes.m with comets := mapSet delRes.m.comets id comet },
      evs := delRes.evs ++ [Ev.stored id], thrown := false }

/-- eventPool[sid] = waiter: the waiter-key set after a sendMsg. -/
def poolAdd (c : Comet) (sid : String) : Comet :=
  { c with eventPool := sid :: c.eventPool.filter (fun s => s != sid) }

/-- delete eventPool[sid]: the waiter-key set after an echo resolution. -/
def poolDrop (c : Comet) (sid : String) : Comet :=
  { c with eventPool := c.eventPool.filter (fun s => s != sid) }

/-- Sample states for the concrete witnesses: a manager-wired connection
with user close and error callbacks also registered. -/
def sampleOpen : Comet :=
  { wire (newComet "c1") with hasCloseFunc := true, hasErrFunc := true }

def sampleClosed : Comet :=
  { sampleOpen with closeFlag := true, closeReason := some CLOSE_PEER }

/-- The sample connection with a pack hook (onPack) installed. -/
def samplePk : Comet := { sampleOpen with hasPkFunc := true }

/-- A wired connection with a pending waiter for "s1". -/
def c7comet : Comet := { wire (newComet "c7") with eventPool := ["s1"] }

/-- A wired connection that issued one transaction "s1". -/
def c8comet : Comet := ((wire (newComet "conn1")).sendMsg "s1" { body := "q" } none).c

/-- A manager holding one live wired connection under "c1" and one
outstanding transaction pointing at it. -/
def sampleMgr6 : Mgr := { comets := [("c1", sampleOpen)], sendIds := [("sX", "c1")] }

/- ===== helper lemmas ===== -/

theorem strMerge (a b ab : String) (h : a ++ b = ab) (x : String) :
    a ++ (b ++ x) = ab ++ x := by
  rw [← String.append_assoc, h]

theorem mergeCL (x : String) :
    ("\r\n" : String) ++ ("Content-Length: " ++ x) = "\r\nContent-Length: " ++ x :=
  strMerge _ _ _ (by decide) x

theorem mergeBB (x : String) :
    ("\r\n" : String) ++ ("\r\n" ++ x) = "\r\n\r\n" ++ x :=
  strMerge _ _ _ (by decide) x

theorem mergeTail : ("\r\n" : String) ++ "--ctalk_boundary" = "\r\n--ctalk_boundary" := by
  decide

theorem mergeXR (x : String) :
    ("\r\n" : String) ++ ("X-Remote-Address: " ++ x) = "\r\nX-Remote-Address: " ++ x :=
  strMerge _ _ _ (by decide) x

theorem mergeXR2 (x : String) :
    ("\r\nX-Remote-Address: " : String) ++ ("\r\n\r\n" ++ x)
      = "\r\nX-Remote-Address: \r\n\r\n" ++ x :=
  strMerge _ _ _ (by decide) x

theorem mergeXA (x : String) :
    ("\r\n" : String) ++ ("X-Address: " ++ x) = "\r\nX-Address: " ++ x :=
  strMerge _ _ _ (by decide) x

theorem mergeXFull (x : String) :
    ("\r\nX-Address: " : String) ++ ("\r\nX-Remote-Address: \r\n\r\n" ++ x)
      = "\r\nX-Address: \r\nX-Remote-Address: \r\n\r\n" ++ x :=
  strMerge _ _ _ (by decide) x

theorem mapGet_mapSet_self {α : Type} (l : List (String × α)) (k : String) (v : α) :
    mapGet (mapSet l k v) k = some v := by
  simp [mapGet, mapSet]

theorem mapGet_filterKey_ne {α : Type} (l : List (String × α)) (k k2 : String)
    (h : k2 ≠ k) :
    mapGet (l.filter (fun p => p.1 != k)) k2 = mapGet l k2 := by
  have hkk2 : ¬ k = k2 := fun hk => h hk.symm
  induction l with
  | nil => rfl
  | cons p rest ih =>
    by_cases hp : p.1 = k
    · simp [mapGet, List.filter_cons, hp, hkk2, ih]
    · by_cases hp2 : p.1 = k2 <;> simp [mapGet, List.filter_cons, hp, hp2, h, ih]

theorem mapGet_filterKey_self {α : Type} (l : List (String × α)) (k : String) :
    mapGet (l.filter (fun p => p.1 != k)) k = none := by
  induction l with
  | nil => rfl
  | cons p rest ih =>
    by_cases hp : p.1 = k <;> simp [mapGet, List.filter_cons, hp, ih]

theorem mapGet_mapSet_ne {α : Type} (l : List (String × α)) (k k2 : String) (v : α)
    (h : k2 ≠ k) :
    mapGet (mapSet l k v) k2 = mapGet l k2 := by
  have : ¬ k = k2 := fun hk => h hk.symm
  simp [mapSet, mapGet, this, mapGet_filterKey_ne l k k2 h]

theorem mapGet_mapSet_of_get {α : Type} (l : List (String × α)) (k : String) (v : α)
    (h : mapGet l k = some v) (k2 : String) :
    mapGet (mapSet l k v) k2 = mapGet l k2 := by
  by_cases hk : k2 = k
  · subst hk; rw [mapGet_mapSet_self, h]
  · exact mapGet_mapSet_ne l k k2 v hk

theorem mapGet_filterVal_ne (l : List (String × String)) (cid sid : String) :
    mapGet (l.filter (fun p => p.2 != cid)) sid ≠ some cid := by
  induction l with
  | nil => simp [mapGet]
  | cons p rest ih =>
    by_cases hv : p.2 = cid
    · simp [List.filter_cons, hv, ih]
    · by_cases hk : p.1 = sid
      · simp [List.filter_cons, hv, mapGet, hk]
      · simp [List.filter_cons, hv, mapGet, hk, ih]

theorem filter_ne_then_eq_nil {α : Type} (l : List (α × String)) (k : String) :
    (l.filter (fun p => p.2 != k)).filter (fun p => p.2 == k) = [] := by
  induction l with
  | nil => rfl
  | cons p rest ih =>
    by_cases hp : p.2 = k <;> simp [List.filter_cons, hp, ih]

theorem filterKey_ne_then_eq_nil {α : Type} (l : List (String × α)) (k : String) :
    (l.filter (fun p => p.1 != k)).filter (fun p => p.1 == k) = [] := by
  induction l with
  | nil => rfl
  | cons p rest ih =>
    by_cases hp : p.1 = k <;> simp [List.filter_cons, hp, ih]

theorem contains_filter_ne_self (l : List String) (s : String) :
    (l.filter (fun x => x != s)).contains s = false := by
  induction l with
  | nil => rfl
  | cons x rest ih =>
    by_cases hx : x = s
    · simp [List.filter_cons, hx, ih]
    · simp [List.filter_cons, hx, List.contains_cons, ih]
      exact fun hs => hx hs.symm

/-- A close trigger on an already-closed connection: warn only, no state
change, no callback, no throw. -/
theorem applyTrigger_closed (c : Comet) (t : Trigger) (h : c.closeFlag = true) :
    applyTrigger c t = { c := c, evs := [Ev.warn (dupWarn t c.closeReason)], thrown := false } := by
  cases t <;>
    simp [applyTrigger, peerClose, fireTimeout, Comet.del, dupWarn, h]

/-- The first close trigger on an open connection with close and remove
callbacks registered: exactly one close callback, exactly one removal
callback, the flag set, nothing thrown. -/
theorem applyTrigger_open (c : Comet) (t : Trigger) (h : c.closeFlag = false)
    (hc : c.hasCloseFunc = true) (hr : c.hasRmFunc = true) :
    (applyTrigger c t).c.closeFlag = true ∧
    countCloseCb (applyTrigger c t).evs = 1 ∧
    countRmCb (applyTrigger c t).evs = 1 ∧
    (applyTrigger c t).thrown = false := by
  cases t <;> by_cases he : c.hasErrFunc = true <;>
    simp [applyTrigger, peerClose, fireTimeout, Comet.del, removeStep, h, hc, hr, he,
      countCloseCb, countRmCb, Ev.isCloseCb, Ev.isRmCb, List.countP_cons, List.countP_append]

/-- Any further trigger sequence on a closed connection: state unchanged,
no close or removal callback ever again. -/
theorem runTriggers_closed (c : Comet) (h : c.closeFlag = true) (ts : List Trigger) :
    (runTriggers c ts).1 = c ∧
    countCloseCb (runTriggers c ts).2 = 0 ∧
    countRmCb (runTriggers c ts).2 = 0 := by
  induction ts with
  | nil => simp [runTriggers, countCloseCb, countRmCb]
  | cons t ts ih =>
    simp [runTriggers, applyTrigger_closed c t h, countCloseCb, countRmCb,
      List.countP_append, List.countP_cons, Ev.isCloseCb, Ev.isRmCb] at ih ⊢
    exact ih

/-- del on an open connection with both callbacks registered. -/
theorem del_open (c : Comet) (h : c.closeFlag = false) (hc : c.hasCloseFunc = true)
    (hr : c.hasRmFunc = true) :
    c.del = { c := { c with closeFlag := true, closeReason := some CLOSE_COMPEL, timeId := 0 },
              evs := [Ev.closeCb CLOSE_COMPEL "closed by server", Ev.respEnd, Ev.rmCb c.id],
              thrown := false } := by
  simp [Comet.del, removeStep, h, hc, hr]

/-- sendMsg with the send observer wired and no pack hook installed. -/
theorem sendMsg_eq (c : Comet) (sid : String) (m : Msg) (ct : Option String)
    (hs : c.hasSendFunc = true) (hpk : c.hasPkFunc = false) :
    c.sendMsg sid m ct =
      { c := poolAdd c sid,
        evs := [Ev.sendObs c.id sid { m with sid := some sid },
                cometWrite { m with sid := some sid } (some "") ct],
        thrown := false } := by
  simp [Comet.sendMsg, sendStep, poolAdd, cometWrite, defaultPfx, hs, hpk]

/-- echoMsg when a waiter for the message sid exists and the echo observer
is wired: caller callback, waiter deletion, observer, in this order. -/
theorem echoMsg_found (c : Comet) (m : Msg) (sid : String)
    (hm : m.sid = some sid) (hp : c.eventPool.contains sid = true)
    (he : c.hasEchoFunc = true) :
    c.echoMsg m =
      { c := poolDrop c sid,
        evs := [Ev.echoUser m, Ev.poolDel sid, Ev.echoObs none sid m],
        thrown := false } := by
  have hp2 : sid ∈ c.eventPool := by simpa using hp
  simp [Comet.echoMsg, poolDrop, hm, hp2, he]

/-- echoMsg with no matching waiter: log only. -/
theorem echoMsg_notFound (c : Comet) (m : Msg) (sid : String)
    (hm : m.sid = some sid) (hp : c.eventPool.contains sid = false) :
    c.echoMsg m =
      { c := c, evs := [Ev.log ("event for " ++ sid ++ " not found")], thrown := false } := by
  have hp2 : sid ∉ c.eventPool := by simpa using hp
  simp [Comet.echoMsg, hm, hp2]

/-- pongMsg with a positive ping interval and no pack hook: the timer
armed next uses interval * 2000 ms, which also becomes the new
loopTimeout. -/
theorem pong_pos (c : Comet) (m : Msg) (ct : Option String) (i : Int)
    (hm : m.interval = some i) (hi : 0 < i) (hpk : c.hasPkFunc = false) :
    (c.pongMsg m ct).c.timerMsec = (i * 2000).toNat ∧
    (c.pongMsg m ct).c.loopTimeout = (i * 2000).toNat ∧
    (c.pongMsg m ct).c.timeId ≠ 0 := by
  simp [Comet.pongMsg, sendStep, armTimer, hm, hi, hpk]

/-- pongMsg with no positive interval and no pack hook: the timer armed
next reuses the current loopTimeout, which is unchanged. -/
theorem pong_nonpos (c : Comet) (m : Msg) (ct : Option String)
    (hm : ∀ i, m.interval = some i → i ≤ 0) (hpk : c.hasPkFunc = false) :
    (c.pongMsg m ct).c.timerMsec = c.loopTimeout ∧
    (c.pongMsg m ct).c.loopTimeout = c.loopTimeout ∧
    (c.pongMsg m ct).c.timeId ≠ 0 := by
  rcases h : m.interval with _ | i
  · simp [Comet.pongMsg, sendStep, armTimer, h, hpk]
  · have hi : ¬ (0 < i) := by
      have := hm i h
      omega
    simp [Comet.pongMsg, sendStep, armTimer, h, hi, hpk]

/-- Whatever the pack hook, a pongMsg whose message carries no positive
interval leaves loopTimeout unchanged (in the pack-hook case the throw
happens after the interval check). -/
theorem pong_loopTimeout_nonpos (c : Comet) (m : Msg) (ct : Option String)
    (hm : ∀ i, m.interval = some i → i ≤ 0) :
    (c.pongMsg m ct).c.loopTimeout = c.loopTimeout := by
  rcases h : m.interval with _ | i
  · by_cases hpk : c.hasPkFunc <;> simp [Comet.pongMsg, sendStep, armTimer, h, hpk]
  · have hi : ¬ (0 < i) := by
      have := hm i h
      omega
    by_cases hpk : c.hasPkFunc <;>
      simp [Comet.pongMsg, sendStep, armTimer, h, hi, hpk]

/-- pongMsg never changes the callback-slot flags; in particular the
pack-hook flag is invariant under heartbeat runs. -/
theorem pong_hasPkFunc (c : Comet) (m : Msg) (ct : Option String) :
    (c.pongMsg m ct).c.hasPkFunc = c.hasPkFunc := by
  rcases h : m.interval with _ | i
  · by_cases hpk : c.hasPkFunc <;> simp [Comet.pongMsg, sendStep, armTimer, h, hpk]
  · by_cases hi : 0 < i <;> by_cases hpk : c.hasPkFunc <;>
      simp [Comet.pongMsg, sendStep, armTimer, h, hi, hpk]

theorem runPongs_append (c : Comet) (l1 l2 : List (Msg × Option String)) :
    runPongs c (l1 ++ l2) = runPongs (runPongs c l1) l2 := by
  induction l1 generalizing c with
  | nil => simp [runPongs]
  | cons p ps ih => simp [runPongs, ih]

/-- As long as no call carried a positive interval, loopTimeout keeps its
previous value. -/
theorem runPongs_loopTimeout (c : Comet) (l : List (Msg × Option String))
    (h : ∀ q ∈ l, ∀ i, q.1.interval = some i → i ≤ 0) :
    (runPongs c l).loopTimeout = c.loopTimeout := by
  induction l generalizing c with
  | nil => rfl
  | cons q qs ih =>
    have hq : ∀ i, q.1.interval = some i → i ≤ 0 := h q (by simp)
    have hrest : ∀ p ∈ qs, ∀ i, p.1.interval = some i → i ≤ 0 := by
      intro p hp
      exact h p (by simp [hp])
    rw [runPongs, ih _ hrest, pong_loopTimeout_nonpos c q.1 q.2 hq]

/-- The pack-hook flag is invariant over any heartbeat run. -/
theorem runPongs_hasPkFunc (c : Comet) (l : List (Msg × Option String)) :
    (runPongs c l).hasPkFunc = c.hasPkFunc := by
  induction l generalizing c with
  | nil => rfl
  | cons q qs ih => rw [runPongs, ih, pong_hasPkFunc]

theorem countCloseCb_append (a b : List Ev) :
    countCloseCb (a ++ b) = countCloseCb a + countCloseCb b := by
  simp [countCloseCb, List.countP_append]

theorem countRmCb_append (a b : List Ev) :
    countRmCb (a ++ b) = countRmCb a + countRmCb b := by
  simp [countRmCb, List.countP_append]

/- ===== claims ===== -/

/-- C1: for every connection and every sequence of close triggers (peer
disconnect, timer expiry, explicit del), only the first trigger has side
effects — the close callback and the removal callback each run exactly
once over the whole run — and any trigger arriving at an already-closed
connection merely logs a diagnostic and returns with the state unchanged
and no callback invoked. -/
theorem c1_close_once (c : Comet) (t : Trigger) (ts : List Trigger)
    (h : c.closeFlag = false) (hc : c.hasCloseFunc = true) (hr : c.hasRmFunc = true) :
    countCloseCb (runTriggers c (t :: ts)).2 = 1 ∧
    countRmCb (runTriggers c (t :: ts)).2 = 1 ∧
    (runTriggers c (t :: ts)).1.closeFlag = true ∧
    (∀ c2 : Comet, c2.closeFlag = true → ∀ t2 : Trigger,
      applyTrigger c2 t2 =
        { c := c2, evs := [Ev.warn (dupWarn t2 c2.closeReason)], thrown := false }) := by
  obtain ⟨h1, h2, h3, _⟩ := applyTrigger_open c t h hc hr
  obtain ⟨g1, g2, g3⟩ := runTriggers_closed (applyTrigger c t).c h1 ts
  refine ⟨?_, ?_, ?_, fun c2 hc2 t2 => applyTrigger_closed c2 t2 hc2⟩
  · show countCloseCb ((applyTrigger c t).evs ++ (runTriggers (applyTrigger c t).c ts).2) = 1
    rw [countCloseCb_append, h2, g2]
  · show countRmCb ((applyTrigger c t).evs ++ (runTriggers (applyTrigger c t).c ts).2) = 1
    rw [countRmCb_append, h3, g3]
  · show (runTriggers (applyTrigger c t).c ts).1.closeFlag = true
    rw [g1, h1]

/-- C1 witness: a fully wired open connection hit by del, then a peer
close, then a timer expiry. -/
theorem c1_close_once_w :
    countCloseCb (runTriggers sampleOpen [Trigger.compel, Trigger.peer, Trigger.timer]).2 = 1 ∧
    countRmCb (runTriggers sampleOpen [Trigger.compel, Trigger.peer, Trigger.timer]).2 = 1 :=
  ⟨(c1_close_once sampleOpen Trigger.compel [Trigger.peer, Trigger.timer]
      (by decide) (by decide) (by decide)).1,
   (c1_close_once sampleOpen Trigger.compel [Trigger.peer, Trigger.timer]
      (by decide) (by decide) (by decide)).2.1⟩

/-- C2: the liveness timer firing on a started, still-open connection
closes it with CLOSE_TIMEOUT exactly once: the error observer is notified
first, then the close callback, then the removal callback; the pending
timer handle is cleared, and firing on an already-closed connection is
discarded with a diagnostic and no state change. -/
theorem c2_timeout_close (c : Comet) (h : c.closeFlag = false) (hc : c.hasCloseFunc = true)
    (he : c.hasErrFunc = true) (hr : c.hasRmFunc = true) :
    fireTimeout c =
      { c := { c with closeFlag := true, closeReason := some CLOSE_TIMEOUT, timeId := 0 },
        evs := [Ev.errCb "Get next ping timeout.",
                Ev.closeCb CLOSE_TIMEOUT "closed by server", Ev.respEnd, Ev.rmCb c.id],
        thrown := false } ∧
    countCloseCb (fireTimeout c).evs = 1 ∧
    (fireTimeout c).c.timeId = 0 ∧
    (∀ c2 : Comet, c2.closeFlag = true →
      fireTimeout c2 =
        { c := c2, evs := [Ev.warn (timeoutDupMsg c2.closeReason)], thrown := false }) := by
  refine ⟨?_, ?_, ?_, fun c2 hc2 => by simp [fireTimeout, hc2]⟩ <;>
    simp [fireTimeout, removeStep, h, hc, he, hr, countCloseCb, Ev.isCloseCb, List.countP_cons]

/-- C2 witness: the sample open connection times out; the sample closed
connection discards a firing. -/
theorem c2_timeout_close_w :
    countCloseCb (fireTimeout sampleOpen).evs = 1 ∧
    (fireTimeout sampleOpen).c.timeId = 0 ∧
    fireTimeout sampleClosed =
      { c := sampleClosed, evs := [Ev.warn (timeoutDupMsg sampleClosed.closeReason)],
        thrown := false } :=
  ⟨(c2_timeout_close sampleOpen (by decide) (by decide) (by decide) (by decide)).2.1,
   (c2_timeout_close sampleOpen (by decide) (by decide) (by decide) (by decide)).2.2.1,
   (c2_timeout_close sampleOpen (by decide) (by decide) (by decide) (by decide)).2.2.2
     sampleClosed (by decide)⟩

/-- C3: over any sequence of heartbeat (pongMsg) calls on a fresh
connection, the timer armed right after a call whose message carries a
positive interval i has duration 2 * i * 1000 ms; if no call ever carried
a positive interval, the armed timer has the default duration 300000 ms. -/
theorem c3_timer_duration (id : String) (l : List (Msg × Option String)) :
    (∀ l1 m p i, l = l1 ++ [(m, p)] → m.interval = some i → 0 < i →
        (runPongs (newComet id) l).timerMsec = (2 * i * 1000).toNat) ∧
    (l ≠ [] → (∀ q ∈ l, ∀ i, q.1.interval = some i → i ≤ 0) →
        (runPongs (newComet id) l).timerMsec = 300000 ∧
        (runPongs (newComet id) l).timeId ≠ 0) := by
  constructor
  · intro l1 m p i hl hm hi
    subst hl
    rw [runPongs_append]
    have hpk1 : (runPongs (newComet id) l1).hasPkFunc = false := by
      rw [runPongs_hasPkFunc]
      rfl
    have hs : runPongs (runPongs (newComet id) l1) [(m, p)]
        = ((runPongs (newComet id) l1).pongMsg m p).c := rfl
    rw [hs, (pong_pos (runPongs (newComet id) l1) m p i hm hi hpk1).1]
    exact congrArg Int.toNat (by ring)
  · intro hne hall
    rcases (List.eq_nil_or_concat l) with h0 | ⟨l1, q, hl⟩
    · exact absurd h0 hne
    subst hl
    rw [List.concat_eq_append] at hall ⊢
    rw [runPongs_append]
    have hq : ∀ i, q.1.interval = some i → i ≤ 0 :=
      fun i hi => hall q (by simp) i hi
    have hrest : ∀ p ∈ l1, ∀ i, p.1.interval = some i → i ≤ 0 :=
      fun p hp i hi => hall p (by simp [hp]) i hi
    have hlt : (runPongs (newComet id) l1).loopTimeout = 300000 := by
      rw [runPongs_loopTimeout (newComet id) l1 hrest]
      norm_num [newComet]
    have hpk1 : (runPongs (newComet id) l1).hasPkFunc = false := by
      rw [runPongs_hasPkFunc]
      rfl
    have hs : runPongs (runPongs (newComet id) l1) [q]
        = ((runPongs (newComet id) l1).pongMsg q.1 q.2).c := rfl
    have hnp := pong_nonpos (runPongs (newComet id) l1) q.1 q.2 hq hpk1
    rw [hs]
    exact ⟨by rw [hnp.1, hlt], hnp.2.2⟩

/-- C3 witness: pings with intervals 7 s then 3 s arm a 6000 ms timer;
pings with no positive interval keep the 300000 ms default. -/
theorem c3_timer_duration_w :
    (runPongs (newComet "w")
        [({ interval := some 7 }, none), ({ interval := some 3 }, none)]).timerMsec
      = (2 * (3 : Int) * 1000).toNat ∧
    (runPongs (newComet "w") [({ interval := some 0 }, none)]).timerMsec = 300000 :=
  ⟨(c3_timer_duration "w" [({ interval := some 7 }, none), ({ interval := some 3 }, none)]).1
      [({ interval := some 7 }, none)] { interval := some 3 } none 3 rfl rfl (by decide),
   ((c3_timer_duration "w" [({ interval := some 0 }, none)]).2 (by decide)
      (by decide)).1⟩

/-- Unfolding of Mgr.onComet at a present key. -/
theorem onComet_eq (m : Mgr) (cid : String) (c : Comet) (f : Comet → CRes)
    (hm : mapGet m.comets cid = some c) :
    m.onComet cid f =
      { m := Mgr.reacts { m with comets := mapSet m.comets cid (f c).c } (f c).evs,
        evs := (f c).evs, thrown := (f c).thrown } := by
  simp only [Mgr.onComet, hm]

/-- Manager reaction to the events of a sendMsg: sendIds[sid] = cid. -/
theorem reacts_send (m : Mgr) (cid sid : String) (m1 : Msg) (s : String) :
    Mgr.reacts m [Ev.sendObs cid sid m1, Ev.write s]
      = { m with sendIds := mapSet m.sendIds sid cid } := by
  simp [Mgr.reacts, Mgr.react]

/-- Manager reaction to the events of a resolved echo: delete sendIds[sid]. -/
theorem reacts_echo (m : Mgr) (sid : String) (em : Msg) :
    Mgr.reacts m [Ev.echoUser em, Ev.poolDel sid, Ev.echoObs none sid em]
      = { m with sendIds := m.sendIds.filter (fun p => p.1 != sid) } := by
  simp [Mgr.reacts, Mgr.react]

/-- Manager reaction to a log line: nothing. -/
theorem reacts_log (m : Mgr) (s : String) : Mgr.reacts m [Ev.log s] = m := by
  simp [Mgr.reacts, Mgr.react]

/-- C4: on a manager-created (wired) connection, sendMsg registering sid
followed by echoMsg carrying that sid invokes the caller's echo callback
exactly once with the echoed message; afterwards sid is gone from the
manager's sendIds index, and a second echoMsg with the same sid only logs:
no callback, no state change.  (createComet installs no pack hook, hence
the no-pack-hook hypothesis.) -/
theorem c4_send_echo (m : Mgr) (cid : String) (c : Comet) (sid : String)
    (msg em : Msg) (ct : Option String) (r1 r2 r3 : MRes)
    (hm : mapGet m.comets cid = some c) (hid : c.id = cid)
    (hs : c.hasSendFunc = true) (he : c.hasEchoFunc = true)
    (hpk : c.hasPkFunc = false) (hem : em.sid = some sid)
    (hr1 : r1 = m.onComet cid (fun x => x.sendMsg sid msg ct))
    (hr2 : r2 = r1.m.onComet cid (fun x => x.echoMsg em))
    (hr3 : r3 = r2.m.onComet cid (fun x => x.echoMsg em)) :
    mapGet r1.m.sendIds sid = some cid ∧
    r2.evs = [Ev.echoUser em, Ev.poolDel sid, Ev.echoObs none sid em] ∧
    countEchoUser r2.evs = 1 ∧
    mapGet r2.m.sendIds sid = none ∧
    r3.evs = [Ev.log ("event for " ++ sid ++ " not found")] ∧
    countEchoUser r3.evs = 0 ∧
    (∀ k, mapGet r3.m.comets k = mapGet r2.m.comets k) ∧
    r3.m.sendIds = r2.m.sendIds := by
  subst hr1 hr2 hr3
  have he1 : (poolAdd c sid).hasEchoFunc = true := by simp [poolAdd, he]
  have hpool1 : (poolAdd c sid).eventPool.contains sid = true := by
    simp [poolAdd, List.contains_cons]
  have hpool2 : (poolDrop (poolAdd c sid) sid).eventPool.contains sid = false := by
    simp [poolDrop, contains_filter_ne_self]
  have h1 : m.onComet cid (fun x => x.sendMsg sid msg ct) =
      { m := { comets := mapSet m.comets cid (poolAdd c sid),
               sendIds := mapSet m.sendIds sid cid },
        evs := [Ev.sendObs cid sid { msg with sid := some sid },
                cometWrite { msg with sid := some sid } (some "") ct],
        thrown := false } := by
    rw [onComet_eq m cid c _ hm, sendMsg_eq c sid msg ct hs hpk]
    simp [Mgr.reacts, Mgr.react, cometWrite, hid]
  rw [h1]
  have hg1 : mapGet (mapSet m.comets cid (poolAdd c sid)) cid = some (poolAdd c sid) :=
    mapGet_mapSet_self _ _ _
  have h2 : Mgr.onComet
      { comets := mapSet m.comets cid (poolAdd c sid),
        sendIds := mapSet m.sendIds sid cid } cid (fun x => x.echoMsg em) =
      { m := { comets := mapSet (mapSet m.comets cid (poolAdd c sid)) cid
                 (poolDrop (poolAdd c sid) sid),
               sendIds := (mapSet m.sendIds sid cid).filter (fun p => p.1 != sid) },
        evs := [Ev.echoUser em, Ev.poolDel sid, Ev.echoObs none sid em],
        thrown := false } := by
    rw [onComet_eq _ cid (poolAdd c sid) _ hg1,
      echoMsg_found (poolAdd c sid) em sid hem hpool1 he1]
    simp [Mgr.reacts, Mgr.react]
  rw [h2]
  have hg2 : mapGet (mapSet (mapSet m.comets cid (poolAdd c sid)) cid
      (poolDrop (poolAdd c sid) sid)) cid = some (poolDrop (poolAdd c sid) sid) :=
    mapGet_mapSet_self _ _ _
  have h3 : Mgr.onComet
      { comets := mapSet (mapSet m.comets cid (poolAdd c sid)) cid
          (poolDrop (poolAdd c sid) sid),
        sendIds := (mapSet m.sendIds sid cid).filter (fun p => p.1 != sid) } cid
      (fun x => x.echoMsg em) =
      { m := { comets := mapSet (mapSet (mapSet m.comets cid (poolAdd c sid)) cid
                 (poolDrop (poolAdd c sid) sid)) cid (poolDrop (poolAdd c sid) sid),
               sendIds := (mapSet m.sendIds sid cid).filter (fun p => p.1 != sid) },
        evs := [Ev.log ("event for " ++ sid ++ " not found")],
        thrown := false } := by
    rw [onComet_eq _ cid (poolDrop (poolAdd c sid) sid) _ hg2,
      echoMsg_notFound (poolDrop (poolAdd c sid) sid) em sid hem hpool2]
    simp [Mgr.reacts, Mgr.react]
  rw [h3]
  refine ⟨mapGet_mapSet_self _ _ _, rfl, by simp [countEchoUser, Ev.isEchoUser],
    mapGet_filterKey_self _ _, rfl, by simp [countEchoUser, Ev.isEchoUser],
    fun k => mapGet_mapSet_of_get _ _ _ hg2 k, rfl⟩

/-- C4 witness: a wired connection "c1" in the manager, one send with sid
"s1", echo resolved once, second echo a no-op. -/
theorem c4_send_echo_w :
    mapGet ((Mgr.onComet { comets := [("c1", wire (newComet "c1"))], sendIds := [] }
        "c1" (fun x => x.sendMsg "s1" { body := "x" } none)).m).sendIds "s1" = some "c1" ∧
    countEchoUser ((Mgr.onComet (Mgr.onComet
        { comets := [("c1", wire (newComet "c1"))], sendIds := [] }
        "c1" (fun x => x.sendMsg "s1" { body := "x" } none)).m
        "c1" (fun x => x.echoMsg { sid := some "s1", body := "y" })).evs) = 1 ∧
    mapGet ((Mgr.onComet (Mgr.onComet
        { comets := [("c1", wire (newComet "c1"))], sendIds := [] }
        "c1" (fun x => x.sendMsg "s1" { body := "x" } none)).m
        "c1" (fun x => x.echoMsg { sid := some "s1", body := "y" })).m).sendIds "s1"
      = none := by
  obtain ⟨w1, _, w3, w4, _⟩ :=
    c4_send_echo { comets := [("c1", wire (newComet "c1"))], sendIds := [] } "c1"
      (wire (newComet "c1")) "s1" { body := "x" } { sid := some "s1", body := "y" } none
      _ _ _ (by decide) (by decide) (by decide) (by decide) (by decide) (by decide)
      rfl rfl rfl
  exact ⟨w1, w3, w4⟩

/-- C5 counterexample: the comet.js _send frame differs from the spec's
byte-exact grammar (it carries extra X-Address header lines) already at a
concrete prefix, content type and payload. -/
theorem c5_frame_cex :
    sendFrameCometJs "" CONTENT_TYPE_APP "p" ≠ specFrame "" CONTENT_TYPE_APP "p" := by
  decide

/-- C5 (amended): the part_000 _send frame is byte-for-byte the spec
grammar — prefix, Content-Type line, Content-Length line carrying the byte
length of the written payload, blank line, payload, boundary marker, and
nothing else; the comet.js _send frame is the same except that two extra
header lines, "X-Address: " and "X-Remote-Address: ", sit between the
Content-Length line and the blank line. -/
theorem c5_frame_amended (pfx ct pl : String) :
    sendFrame000 pfx ct pl = specFrame pfx ct pl ∧
    sendFrameCometJs pfx ct pl =
      pfx ++ ("Content-Type: " ++ ct ++ crlf)
        ++ ("Content-Length: " ++ toString pl.utf8ByteSize ++ crlf)
        ++ ("X-Address: " ++ crlf) ++ ("X-Remote-Address: " ++ crlf)
        ++ crlf ++ pl ++ (crlf ++ "--ctalk_boundary") := by
  constructor
  · simp [sendFrame000, specFrame, crlf, String.append_assoc, mergeCL, mergeBB, mergeTail]
  · simp [sendFrameCometJs, crlf, String.append_assoc, mergeCL, mergeBB, mergeTail,
      mergeXR, mergeXR2, mergeXA, mergeXFull]

/-- Manager reaction to the events of a del/compel close (the close
callback and stream end are not observed; the remove observer runs
_deleteComet). -/
theorem reacts_close (m : Mgr) (a b cid : String) :
    Mgr.reacts m [Ev.closeCb a b, Ev.respEnd, Ev.rmCb cid] = m.deleteComet cid := by
  simp [Mgr.reacts, Mgr.react]

/-- Re-keying a map entry then dropping the key leaves the other entries. -/
theorem filterKey_mapSet {α : Type} (l : List (String × α)) (k : String) (v : α) :
    (mapSet l k v).filter (fun p => p.1 != k) = l.filter (fun p => p.1 != k) := by
  simp [mapSet, List.filter_cons, List.filter_filter]

/-- C6: createComet on a cid naming a live connection compel-closes the
old one first — its close callback and removal callback run, and its index
entries (by-id and transaction) are deleted — before the new connection is
stored; afterwards the by-id index maps cid to exactly the new wired
connection, and no transaction entry points at cid. -/
theorem c6_create_replaces (m : Mgr) (cid fresh : String) (old : Comet)
    (hcid : cid ≠ "") (hm : mapGet m.comets cid = some old) (hid : old.id = cid)
    (hflag : old.closeFlag = false) (hc : old.hasCloseFunc = true)
    (hr : old.hasRmFunc = true) :
    (m.createComet cid fresh).evs =
      [Ev.closeCb CLOSE_COMPEL "closed by server", Ev.respEnd, Ev.rmCb cid,
       Ev.stored cid] ∧
    (m.createComet cid fresh).thrown = false ∧
    mapGet (m.createComet cid fresh).m.comets cid = some (wire (newComet cid)) ∧
    ((m.createComet cid fresh).m.comets.filter (fun p => p.1 == cid)).length = 1 ∧
    (∀ sid, mapGet (m.createComet cid fresh).m.sendIds sid ≠ some cid) := by
  have hdel := del_open old hflag hc hr
  have hcr : m.createComet cid fresh =
      { m := { comets := mapSet (m.comets.filter (fun p => p.1 != cid)) cid
                 (wire (newComet cid)),
               sendIds := m.sendIds.filter (fun p => p.2 != cid) },
        evs := [Ev.closeCb CLOSE_COMPEL "closed by server", Ev.respEnd, Ev.rmCb cid,
                Ev.stored cid],
        thrown := false } := by
    simp only [Mgr.createComet, hcid, if_true, hm, hdel, hid, reacts_close,
      Mgr.deleteComet, if_neg, ite_false]
    simp [hcid, filterKey_mapSet, Mgr.deleteComet, reacts_close]
  rw [hcr]
  refine ⟨rfl, rfl, mapGet_mapSet_self _ _ _, ?_, fun sid => mapGet_filterVal_ne _ _ _⟩
  simp [mapSet, List.filter_cons, List.filter_filter, filterKey_ne_then_eq_nil]

/-- C6 witness: a manager with a live wired connection under "c1" and a
transaction "sX" pointing at it. -/
theorem c6_create_replaces_w :
    (sampleMgr6.createComet "c1" "f").evs =
      [Ev.closeCb CLOSE_COMPEL "closed by server", Ev.respEnd, Ev.rmCb "c1",
       Ev.stored "c1"] ∧
    mapGet (sampleMgr6.createComet "c1" "f").m.comets "c1" = some (wire (newComet "c1")) ∧
    mapGet (sampleMgr6.createComet "c1" "f").m.sendIds "sX" ≠ some "c1" := by
  obtain ⟨w1, _, w3, _, w5⟩ :=
    c6_create_replaces sampleMgr6 "c1" "f" sampleOpen (by decide) (by decide)
      (by decide) (by decide) (by decide) (by decide)
  exact ⟨w1, w3, w5 "sX"⟩

/-- C7 counterexample: resolving an echo does not delete the waiter before
invoking the caller's echo callback — on a connection with a pending
waiter "s1", the trace has the caller callback first, so the scan
requiring deletion-before-callback rejects it. -/
theorem c7_delete_before_cb_cex :
    delBeforeUse ((c7comet.echoMsg { sid := some "s1" }).evs) [] = false := by
  decide

/-- C7 (amended): on each echo resolution the caller's echo callback runs
first, the waiter entry is deleted immediately AFTER it (and before the
echo-resolved observer is notified); the transaction id is therefore still
present in the pending-echo map while the caller's callback runs, and is
gone once the resolution completes. -/
theorem c7_delete_after_cb (c : Comet) (em : Msg) (sid : String)
    (hm : em.sid = some sid) (hp : c.eventPool.contains sid = true)
    (he : c.hasEchoFunc = true) :
    (c.echoMsg em).evs = [Ev.echoUser em, Ev.poolDel sid, Ev.echoObs none sid em] ∧
    (c.echoMsg em).c.eventPool.contains sid = false := by
  rw [echoMsg_found c em sid hm hp he]
  exact ⟨rfl, by simp [poolDrop, contains_filter_ne_self]⟩

/-- C7 witness: the wired connection with pending waiter "s1". -/
theorem c7_delete_after_cb_w :
    (c7comet.echoMsg { sid := some "s1" }).evs =
      [Ev.echoUser { sid := some "s1" }, Ev.poolDel "s1",
       Ev.echoObs none "s1" { sid := some "s1" }] ∧
    (c7comet.echoMsg { sid := some "s1" }).c.eventPool.contains "s1" = false :=
  c7_delete_after_cb c7comet { sid := some "s1" } "s1" rfl (by decide) (by decide)

/-- C8 (code bug): when an echo resolves, the echo-resolved observer is
invoked with cid taken from this.id inside the EventEmitter listener,
where this is the emitter — which has no id — so the observer receives
undefined (none) as cid, never the issuing connection's id, contradicting
the documented contract that event.cid is the Comet id of the sender. -/
theorem c8_echo_observer_cid :
    (c8comet.echoMsg { sid := some "s1", body := "r" }).evs =
      [Ev.echoUser { sid := some "s1", body := "r" }, Ev.poolDel "s1",
       Ev.echoObs none "s1" { sid := some "s1", body := "r" }] ∧
    c8comet.id = "conn1" ∧
    Ev.echoObs (some c8comet.id) "s1" { sid := some "s1", body := "r" }
      ∉ (c8comet.echoMsg { sid := some "s1", body := "r" }).evs := by
  decide

/-- C9 counterexample: del on a manager-created connection whose user
never registered a close callback throws a TypeError across the
connection boundary (this.closeFunc is invoked unguarded). -/
theorem c9_del_throws_cex : ((wire (newComet "c1")).del).thrown = true := by
  decide

/-- C9 (amended): with a close callback registered, the close triggers
(del, the peer-close listener, the timer callback) never throw, and
echoMsg never throws; the send paths (sendMsg, pongMsg, directSend,
start) do not throw either as long as no pack hook is installed — but on
a connection with a pack hook (synchronous transform), every one of those
send paths throws a TypeError, because the transform's result callback
dereferences a strict-mode undefined this on both its arms, before any
frame is written or the error observer is notified. -/
theorem c9_no_throw (c : Comet) (hc : c.hasCloseFunc = true) :
    c.del.thrown = false ∧
    (peerClose c).thrown = false ∧
    (fireTimeout c).thrown = false ∧
    (∀ msg, (c.echoMsg msg).thrown = false) ∧
    (c.hasPkFunc = false →
      (∀ sid msg ct, (c.sendMsg sid msg ct).thrown = false) ∧
      (∀ msg ct, (c.pongMsg msg ct).thrown = false) ∧
      (∀ msg, (c.directSend msg).thrown = false) ∧
      c.start.thrown = false) ∧
    (c.hasPkFunc = true →
      (∀ sid msg ct, (c.sendMsg sid msg ct).thrown = true) ∧
      (∀ msg ct, (c.pongMsg msg ct).thrown = true) ∧
      (∀ msg, (c.directSend msg).thrown = true) ∧
      c.start.thrown = true) := by
  refine ⟨?_, ?_, ?_, fun msg => ?_, fun hpk => ?_, fun hpk => ?_⟩
  · cases h : c.closeFlag <;> simp [Comet.del, h, hc]
  · cases h : c.closeFlag <;> simp [peerClose, h, hc]
  · cases h : c.closeFlag <;> cases he : c.hasErrFunc <;> simp [fireTimeout, h, hc, he]
  · rcases hm : msg.sid with _ | sid
    · simp [Comet.echoMsg, hm]
    · simp only [Comet.echoMsg, hm]
      split <;> rfl
  · refine ⟨fun sid msg ct => by simp [Comet.sendMsg, sendStep, hpk],
      fun msg ct => ?_, fun msg => by simp [Comet.directSend, sendStep, hpk],
      by simp [Comet.start, sendStep, hpk]⟩
    rcases h : msg.interval with _ | i
    · simp [Comet.pongMsg, sendStep, armTimer, h, hpk]
    · by_cases hi : 0 < i <;> simp [Comet.pongMsg, sendStep, armTimer, h, hi, hpk]
  · refine ⟨fun sid msg ct => by simp [Comet.sendMsg, sendStep, hpk],
      fun msg ct => ?_, fun msg => by simp [Comet.directSend, sendStep, hpk],
      by simp [Comet.start, sendStep, hpk]⟩
    rcases h : msg.interval with _ | i
    · simp [Comet.pongMsg, sendStep, armTimer, h, hpk]
    · by_cases hi : 0 < i <;> simp [Comet.pongMsg, sendStep, armTimer, h, hi, hpk]

/-- C9 witness: the sample open connection (close callback registered,
no pack hook) and its pack-hooked variant. -/
theorem c9_no_throw_w :
    (sampleOpen.del).thrown = false ∧
    (sampleOpen.sendMsg "s" { body := "b" } none).thrown = false ∧
    (samplePk.sendMsg "s" { body := "b" } none).thrown = true := by
  refine ⟨(c9_no_throw sampleOpen (by decide)).1, ?_, ?_⟩
  · exact ((c9_no_throw sampleOpen (by decide)).2.2.2.2.1 (by decide)).1
      "s" { body := "b" } none
  · exact ((c9_no_throw samplePk (by decide)).2.2.2.2.2 (by decide)).1
      "s" { body := "b" } none

/-- pongMsg leaves closeFlag, closeReason and key untouched (in both the
plain and the pack-hook branch). -/
theorem pong_preserves (c : Comet) (m : Msg) (ct : Option String) :
    (c.pongMsg m ct).c.closeFlag = c.closeFlag ∧
    (c.pongMsg m ct).c.closeReason = c.closeReason ∧
    (c.pongMsg m ct).c.key = c.key := by
  rcases hm : m.interval with _ | i
  · by_cases hpk : c.hasPkFunc <;> simp [Comet.pongMsg, sendStep, armTimer, hm, hpk]
  · by_cases hi : 0 < i <;> by_cases hpk : c.hasPkFunc <;>
      simp [Comet.pongMsg, sendStep, armTimer, hm, hi, hpk]

/-- pongMsg with the heartbeat observer wired and no pack hook: pong frame
written, then the observer fires. -/
theorem pong_evs (c : Comet) (m : Msg) (ct : Option String)
    (hb : c.hasHbFunc = true) (hpk : c.hasPkFunc = false) :
    (c.pongMsg m ct).evs = [cometWrite m (some "") ct, Ev.hbObs c.key] := by
  rcases hm : m.interval with _ | i
  · simp [Comet.pongMsg, sendStep, cometWrite, defaultPfx, armTimer, hm, hb, hpk]
  · by_cases hi : 0 < i <;>
      simp [Comet.pongMsg, sendStep, cometWrite, defaultPfx, armTimer, hm, hi, hb, hpk]

/-- pongMsg without a pack hook always leaves a pending timer. -/
theorem pong_timeId (c : Comet) (m : Msg) (ct : Option String)
    (hpk : c.hasPkFunc = false) :
    (c.pongMsg m ct).c.timeId ≠ 0 := by
  rcases hm : m.interval with _ | i
  · simp [Comet.pongMsg, sendStep, armTimer, hm, hpk]
  · by_cases hi : 0 < i <;> simp [Comet.pongMsg, sendStep, armTimer, hm, hi, hpk]

/-- pongMsg without a pack hook never throws. -/
theorem pong_noThrow (c : Comet) (m : Msg) (ct : Option String)
    (hpk : c.hasPkFunc = false) :
    (c.pongMsg m ct).thrown = false := by
  rcases hm : m.interval with _ | i
  · simp [Comet.pongMsg, sendStep, armTimer, hm, hpk]
  · by_cases hi : 0 < i <;> simp [Comet.pongMsg, sendStep, armTimer, hm, hi, hpk]

/-- C10: pongMsg on an already-CLOSED connection (without a pack hook, so
that the write path completes) is not rejected: the pong frame is still
written, a positive ping interval still updates loopTimeout, the liveness
timer is re-armed, and the heartbeat observer still fires; the connection
stays CLOSED with its closeReason unchanged, and the re-armed timer's
firing is discarded by the closed-state guard, so no second close ever
occurs. -/
theorem c10_pong_after_close (c : Comet) (m : Msg) (ct : Option String)
    (h : c.closeFlag = true) (hb : c.hasHbFunc = true)
    (hpk : c.hasPkFunc = false) :
    (c.pongMsg m ct).c.closeFlag = true ∧
    (c.pongMsg m ct).c.closeReason = c.closeReason ∧
    (c.pongMsg m ct).c.timeId ≠ 0 ∧
    (c.pongMsg m ct).thrown = false ∧
    (c.pongMsg m ct).evs = [cometWrite m (some "") ct, Ev.hbObs c.key] ∧
    (∀ i, m.interval = some i → 0 < i →
      (c.pongMsg m ct).c.loopTimeout = (2 * i * 1000).toNat) ∧
    ((∀ i, m.interval = some i → i ≤ 0) →
      (c.pongMsg m ct).c.loopTimeout = c.loopTimeout) ∧
    fireTimeout (c.pongMsg m ct).c =
      { c := (c.pongMsg m ct).c,
        evs := [Ev.warn (timeoutDupMsg (c.pongMsg m ct).c.closeReason)],
        thrown := false } := by
  obtain ⟨p1, p2, _⟩ := pong_preserves c m ct
  have hcf : (c.pongMsg m ct).c.closeFlag = true := by rw [p1, h]
  refine ⟨hcf, p2, pong_timeId c m ct hpk, pong_noThrow c m ct hpk,
    pong_evs c m ct hb hpk, ?_, ?_, ?_⟩
  · intro i hi hpos
    rw [(pong_pos c m ct i hi hpos hpk).2.1]
    exact congrArg Int.toNat (by ring)
  · intro hnp
    exact (pong_nonpos c m ct hnp hpk).2.1
  · simp [fireTimeout, hcf]

/-- C10 witness: the sample closed connection receives a ping with a
positive interval. -/
theorem c10_pong_after_close_w :
    (sampleClosed.pongMsg { interval := some 4 } none).c.closeFlag = true ∧
    (sampleClosed.pongMsg { interval := some 4 } none).c.closeReason
      = sampleClosed.closeReason ∧
    (sampleClosed.pongMsg { interval := some 4 } none).c.loopTimeout
      = ((2 : Int) * 4 * 1000).toNat :=
  ⟨(c10_pong_after_close sampleClosed { interval := some 4 } none
      (by decide) (by decide) (by decide)).1,
   (c10_pong_after_close sampleClosed { interval := some 4 } none
      (by decide) (by decide) (by decide)).2.1,
   (c10_pong_after_close sampleClosed { interval := some 4 } none
      (by decide) (by decide) (by decide)).2.2.2.2.2.1 4 rfl (by decide)⟩
